import Mathlib

/-!
Shallow embedding of the Omni-Pro-Treadmill-Driver core: signal
normalization and smoothing, the action-name classifier, the injection
policies of the call-interception shims, the pose-quaternion synthesis and
the headset-direction validator.  Numeric code is modelled over ℚ where it
is pure rational arithmetic and over ℝ where trigonometry or square roots
appear.  Machine `float` arithmetic is idealized as exact arithmetic.
-/

set_option maxRecDepth 8000

/-! ## Numeric helpers -/

/-- `std::clamp(v, lo, hi)` over ℚ: `v < lo ? lo : (hi < v ? hi : v)`. -/
def clampQ (v lo hi : ℚ) : ℚ :=
  if v < lo then lo else if hi < v then hi else v

/-! ## Shared utility functions (`treadmill_input.cpp`, both shims) -/

/-- `ApplyDeadzone` from `TreadmillOpenVRWrapper/treadmill_input.cpp:210`
(and the identical copy in `TreadmillOpenXRLayer/treadmill_input.cpp:243`). -/
def ApplyDeadzone (value deadzone : ℚ) : ℚ :=
  if |value| < deadzone then 0
  else (if 0 < value then 1 else -1) * (|value| - deadzone) / (1 - deadzone)

/-- `ApplySmoothing` from `TreadmillOpenVRWrapper/treadmill_input.cpp:218`
(and the identical copy in the OpenXR layer): linear EMA step. -/
def ApplySmoothing (current target factor : ℚ) : ℚ :=
  current + (target - current) * factor

/-- Iterated ingestion of the constant raw sample `raw` through
`ApplySmoothing`, starting from `s0`. -/
def smoothedIter (alpha raw s0 : ℚ) : ℕ → ℚ
  | 0 => s0
  | n + 1 => ApplySmoothing (smoothedIter alpha raw s0 n) raw alpha

/-! ## Configuration (`treadmill_input.h`) -/

/-- `Config::InputMode`. -/
inductive InputMode
  | Override
  | Additive
  | Smart
deriving DecidableEq

/-- The `Config` fields the injection engine reads (`treadmill_input.h:58`).
`targetControllerIndex` is `-1` by default (inject into all controllers);
the OpenXR layer's `Config` has no such field. -/
structure Config where
  enabled : Bool
  speedMultiplier : ℚ
  deadzone : ℚ
  smoothing : ℚ
  targetControllerIndex : ℤ
  inputMode : InputMode
  actionPatterns : List (List Char)

/-! ## TreadmillState and the shim sample handlers -/

/-- `TreadmillState` of the OpenVR wrapper / OpenXR layer
(`treadmill_input.h:14`): atomic fields written by `OmniBridge::OnOmniData`. -/
structure TreadmillState where
  x : ℚ
  y : ℚ
  yaw : ℚ
  active : Bool
  lastUpdateTime : ℕ
  updateCount : ℕ
deriving DecidableEq

/-- The all-zero, inactive initial `TreadmillState`. -/
def TreadmillState.init : TreadmillState :=
  { x := 0, y := 0, yaw := 0, active := false, lastUpdateTime := 0, updateCount := 0 }

/-- `OmniBridge::OnOmniData` of the OpenVR wrapper
(`TreadmillOpenVRWrapper/treadmill_input.cpp:31`): normalize the pad sample,
apply deadzone, speed multiplier and clamp, EMA-smooth x and y, and store
the ring angle into `yaw` as received. -/
def OnOmniDataWrapper (cfg : Config) (s : TreadmillState) (timestamp : ℕ)
    (ringAngle : ℚ) (gamePadX gamePadY : ℤ) : TreadmillState :=
  let x0 := ((gamePadX : ℚ) - 127) / 127
  let y0 := -(((gamePadY : ℚ)) - 127) / 127
  let x1 := ApplyDeadzone x0 cfg.deadzone
  let y1 := ApplyDeadzone y0 cfg.deadzone
  let x2 := x1 * cfg.speedMultiplier
  let y2 := y1 * cfg.speedMultiplier
  let x3 := clampQ x2 (-1) 1
  let y3 := clampQ y2 (-1) 1
  { x := ApplySmoothing s.x x3 cfg.smoothing,
    y := ApplySmoothing s.y y3 cfg.smoothing,
    yaw := ringAngle,
    active := true,
    lastUpdateTime := timestamp,
    updateCount := s.updateCount + 1 }

/-- `OmniBridge::OnOmniData` of the OpenXR layer
(`TreadmillOpenXRLayer/treadmill_input.cpp:81`): textually the same update
as the OpenVR wrapper's handler; `yaw` again receives the raw ring angle. -/
def OnOmniDataXrLayer (cfg : Config) (s : TreadmillState) (timestamp : ℕ)
    (ringAngle : ℚ) (gamePadX gamePadY : ℤ) : TreadmillState :=
  let x0 := ((gamePadX : ℚ) - 127) / 127
  let y0 := -(((gamePadY : ℚ)) - 127) / 127
  let x1 := ApplyDeadzone x0 cfg.deadzone
  let y1 := ApplyDeadzone y0 cfg.deadzone
  let x2 := x1 * cfg.speedMultiplier
  let y2 := y1 * cfg.speedMultiplier
  let x3 := clampQ x2 (-1) 1
  let y3 := clampQ y2 (-1) 1
  { x := ApplySmoothing s.x x3 cfg.smoothing,
    y := ApplySmoothing s.y y3 cfg.smoothing,
    yaw := ringAngle,
    active := true,
    lastUpdateTime := timestamp,
    updateCount := s.updateCount + 1 }

/-! ## The driver's state and sample handler (`driver_treadmill.cpp`) -/

/-- `XYState` of `driver_treadmill.cpp:22` (the fields written by
`OnOmniData`). -/
structure XYState where
  x : ℚ
  y : ℚ
  yaw : ℚ
  x_smoothed : ℚ
  y_smoothed : ℚ
  yaw_smoothed : ℚ
deriving DecidableEq

/-- The two sequential conditionals of `driver_treadmill.cpp:379` that
bring `yaw_diff` towards `[-180, 180]`. -/
def wrapDiff180 (d : ℚ) : ℚ :=
  let d1 := if 180 < d then d - 360 else d
  if d1 < -180 then d1 + 360 else d1

/-- The two sequential conditionals of `driver_treadmill.cpp:386` that
bring the smoothed yaw towards `[0, 360)`. -/
def wrap360 (v : ℚ) : ℚ :=
  let v1 := if v < 0 then v + 360 else v
  if 360 ≤ v1 then v1 - 360 else v1

/-- The driver's `OnOmniData` handler (`driver_treadmill.cpp:345`): clamp
the normalized pad sample, EMA-smooth x and y, and circularly smooth the
yaw with the wrapped difference. -/
def OnOmniDataDriver (alpha : ℚ) (s : XYState) (ringAngle : ℚ)
    (gamePadX gamePadY : ℤ) : XYState :=
  let raw_x := clampQ (((gamePadX : ℚ) - 127) / 127) (-1) 1
  let raw_y := clampQ (-(((gamePadY : ℚ)) - 127) / 127) (-1) 1
  let yaw_diff := wrapDiff180 (ringAngle - s.yaw_smoothed)
  { x := raw_x,
    y := raw_y,
    yaw := ringAngle,
    x_smoothed := alpha * raw_x + (1 - alpha) * s.x_smoothed,
    y_smoothed := alpha * raw_y + (1 - alpha) * s.y_smoothed,
    yaw_smoothed := wrap360 (s.yaw_smoothed + alpha * yaw_diff) }

/-! ## Injection policies of the interception shims -/

/-- `treadmillActive` as computed at every interception site:
`|x| > 0.05 || |y| > 0.05`. -/
def treadmillActiveQ (tx ty : ℚ) : Bool :=
  decide ((1 : ℚ)/20 < |tx|) || decide ((1 : ℚ)/20 < |ty|)

/-- The value/active part of OpenVR's `InputAnalogActionData_t`. -/
structure InputAnalogActionData where
  x : ℚ
  y : ℚ
  bActive : Bool
deriving DecidableEq

/-- The mode switch of `Wrapped_GetAnalogActionData`
(`TreadmillOpenVRWrapper/openvr_wrapper.cpp:107`), applied once the action
is classified as movement and the bridge is connected. -/
def analogActionInject (mode : InputMode) (d : InputAnalogActionData)
    (tx ty : ℚ) : InputAnalogActionData :=
  let active := treadmillActiveQ tx ty
  match mode with
  | .Override => if active then { x := tx, y := ty, bActive := true } else d
  | .Additive =>
      { x := clampQ (d.x + tx) (-1) 1,
        y := clampQ (d.y + ty) (-1) 1,
        bActive := if active then true else d.bActive }
  | .Smart => if active then { x := tx, y := ty, bActive := true } else d

/-- `Wrapped_GetAnalogActionData` (`openvr_wrapper.cpp:89`), as a function
of the state the host call produced.  `hostOk` models
`result == VRInputError_None && pActionData`; `connected` models
`OmniBridge::IsConnected()`.  The `ulRestrictToDevice` argument is received
but never consulted by the injection logic. -/
def Wrapped_GetAnalogActionData (cfg : Config) (hostOk connected isMovement : Bool)
    (ulRestrictToDevice : ℤ) (d : InputAnalogActionData) (tx ty : ℚ) :
    InputAnalogActionData :=
  if hostOk && (isMovement && connected) then
    analogActionInject cfg.inputMode d tx ty
  else d

/-- The joystick axis pair of OpenVR's `VRControllerState_t`. -/
structure VRControllerAxis where
  x : ℚ
  y : ℚ
deriving DecidableEq

/-- The mode switch of `Wrapped_GetControllerState`
(`openvr_wrapper.cpp:175`): the whole switch sits inside
`if (treadmillActive)`. -/
def controllerStateInject (mode : InputMode) (ax : VRControllerAxis)
    (tx ty : ℚ) : VRControllerAxis :=
  if treadmillActiveQ tx ty then
    match mode with
    | .Override => { x := tx, y := ty }
    | .Additive => { x := clampQ (ax.x + tx) (-1) 1, y := clampQ (ax.y + ty) (-1) 1 }
    | .Smart => { x := tx, y := ty }
  else ax

/-- `Wrapped_GetControllerState` (`openvr_wrapper.cpp:156`): target-filter
check, then the treadmill-gated mode switch.  `hostOk` models
`result && pControllerState && OmniBridge::IsConnected()`. -/
def Wrapped_GetControllerState (cfg : Config) (hostOk : Bool) (deviceIndex : ℕ)
    (ax : VRControllerAxis) (tx ty : ℚ) : VRControllerAxis :=
  if hostOk then
    if 0 ≤ cfg.targetControllerIndex ∧ (deviceIndex : ℤ) ≠ cfg.targetControllerIndex then
      ax
    else controllerStateInject cfg.inputMode ax tx ty
  else ax

/-- `Wrapped_GetControllerStateWithPose` (`openvr_wrapper.cpp:208`): a
textual duplicate of `Wrapped_GetControllerState`'s injection logic. -/
def Wrapped_GetControllerStateWithPose (cfg : Config) (hostOk : Bool)
    (deviceIndex : ℕ) (ax : VRControllerAxis) (tx ty : ℚ) : VRControllerAxis :=
  if hostOk then
    if 0 ≤ cfg.targetControllerIndex ∧ (deviceIndex : ℤ) ≠ cfg.targetControllerIndex then
      ax
    else controllerStateInject cfg.inputMode ax tx ty
  else ax

/-- The value/active part of OpenXR's `XrActionStateVector2f`. -/
structure XrActionStateVector2f where
  x : ℚ
  y : ℚ
  isActive : Bool
deriving DecidableEq

/-- The mode switch of `TreadmillLayer_xrGetActionStateVector2f`
(`TreadmillOpenXRLayer/openxr_interceptor.cpp:203`): guarded by
`treadmillActive || inputMode == Additive`, with `Smart` re-checking
`treadmillActive` inside its case. -/
def xrVector2fInject (mode : InputMode) (st : XrActionStateVector2f)
    (tx ty : ℚ) : XrActionStateVector2f :=
  let active := treadmillActiveQ tx ty
  if active || decide (mode = InputMode.Additive) then
    match mode with
    | .Override => { x := tx, y := ty, isActive := true }
    | .Additive =>
        { x := clampQ (st.x + tx) (-1) 1,
          y := clampQ (st.y + ty) (-1) 1,
          isActive := if active then true else st.isActive }
    | .Smart => if active then { x := tx, y := ty, isActive := true } else st
  else st

/-! ## Action-name classifier (`MatchesPattern`) -/

/-- `::tolower` restricted to ASCII, as applied by `std::transform` in
`MatchesPattern`. -/
def tolowerChar (c : Char) : Char :=
  if 'A' ≤ c ∧ c ≤ 'Z' then Char.ofNat (c.toNat + 32) else c

/-- Case-folding of a whole string. -/
def strLower (s : List Char) : List Char := s.map tolowerChar

/-- `std::string::find(needle) != npos`: the needle occurs at some
position of the haystack (the empty needle is always found). -/
def cppFindExists (hay needle : List Char) : Bool :=
  match hay with
  | [] => decide (needle = ([] : List Char))
  | _ :: tl => decide (hay.take needle.length = needle) || cppFindExists tl needle

/-- `MatchesPattern` (`TreadmillOpenVRWrapper/treadmill_input.cpp:222` and
the identical copy in the OpenXR layer): case-fold both sides, reject the
empty pattern, strip a leading and a trailing `*`, then substring / suffix
/ prefix / equality comparison depending on which wildcards were present. -/
def MatchesPattern (text pattern : List Char) : Bool :=
  let lowerText := strLower text
  let lowerPattern := strLower pattern
  if lowerPattern.isEmpty then false
  else
    let startWild := decide (lowerPattern.head? = some '*')
    let endWild := decide (lowerPattern.getLast? = some '*')
    let s1 := if startWild then lowerPattern.drop 1 else lowerPattern
    let searchStr := if endWild && !s1.isEmpty then s1.take (s1.length - 1) else s1
    if startWild && endWild then
      cppFindExists lowerText searchStr
    else if startWild then
      decide (searchStr.length ≤ lowerText.length) &&
        decide (lowerText.drop (lowerText.length - searchStr.length) = searchStr)
    else if endWild then
      decide (lowerText.take searchStr.length = searchStr)
    else
      decide (lowerText = searchStr)

/-- The spec's pattern grammar, written with the library's substring,
suffix and prefix relations on the case-folded strings: both wildcards →
the core is an infix of the name, only a leading `*` → the name ends with
the core, only a trailing `*` → the name starts with the core, no wildcard
→ folded equality. -/
def specGrammarMatch (text pattern : List Char) : Bool :=
  let lowerText := strLower text
  let lowerPattern := strLower pattern
  let startWild := decide (lowerPattern.head? = some '*')
  let endWild := decide (lowerPattern.getLast? = some '*')
  let s1 := if startWild then lowerPattern.drop 1 else lowerPattern
  let core := if endWild && !s1.isEmpty then s1.take (s1.length - 1) else s1
  if startWild && endWild then
    decide (core <:+: lowerText)
  else if startWild then
    decide (core <:+ lowerText)
  else if endWild then
    decide (core <+: lowerText)
  else
    decide (lowerText = core)

/-- The classification loop over `g_config.actionPatterns`
(`openvr_wrapper.cpp:73`): movement iff some pattern matches. -/
def classifyMovement (patterns : List (List Char)) (name : List Char) : Bool :=
  patterns.any fun p => MatchesPattern name p

/-- The default `actionPatterns` of `treadmill_input.h:78`. -/
def defaultActionPatterns : List (List Char) :=
  ["*move*".toList, "*locomotion*".toList, "*walk*".toList, "*thumbstick*".toList]

/-! ## Process-level operations of the OpenVR wrapper (for the
`active`-persistence claim) -/

/-- The process state relevant to the wrapper's lifecycle: the shared
`TreadmillState` and the `OmniBridge::s_connected` flag. -/
structure WrapperProcess where
  treadmill : TreadmillState
  connected : Bool
deriving DecidableEq

/-- The operations that touch the wrapper's shared state: a hardware
sample (`OnOmniData`), `OmniBridge::Shutdown`, a state read by a pose or
frame producer, and the two interception reads (which mutate only the
host's structures, never `TreadmillState`). -/
inductive WrapperOp
  | omniData (timestamp : ℕ) (ringAngle : ℚ) (gamePadX gamePadY : ℤ)
  | shutdown
  | readState
  | analogRead (isMovement : Bool) (restrict : ℤ) (d : InputAnalogActionData)
  | controllerRead (deviceIndex : ℕ) (ax : VRControllerAxis)

/-- Effect of one operation on the wrapper's process state. `Shutdown`
(`treadmill_input.cpp:126`) clears only `s_connected`; no operation ever
writes `false` into `TreadmillState.active`. -/
def wrapperStep (cfg : Config) (s : WrapperProcess) : WrapperOp → WrapperProcess
  | .omniData ts ring gx gy =>
      { s with treadmill := OnOmniDataWrapper cfg s.treadmill ts ring gx gy }
  | .shutdown => { s with connected := false }
  | .readState => s
  | .analogRead _ _ _ => s
  | .controllerRead _ _ => s

/-- Running a sequence of operations. -/
def wrapperRun (cfg : Config) (s : WrapperProcess) : List WrapperOp → WrapperProcess
  | [] => s
  | op :: rest => wrapperRun cfg (wrapperStep cfg s op) rest

/-! ## Pose synthesis and the direction validator (`driver_treadmill.cpp`),
over ℝ -/

noncomputable section

open Real

/-- The literal `3.14159265358979323846` used by `driver_treadmill.cpp` for
its degree/radian conversions. -/
def PI_LITERAL : ℝ := 3.14159265358979323846

/-- `DEG2RAD` as in `driver_treadmill.cpp:320`. -/
def DEG2RAD : ℝ := PI_LITERAL / 180

/-- A driver pose quaternion (w, x, y, z). -/
structure QuatR where
  w : ℝ
  x : ℝ
  y : ℝ
  z : ℝ

/-- Squared Euclidean norm of a quaternion. -/
def QuatR.normSq (q : QuatR) : ℝ :=
  q.w * q.w + q.x * q.x + q.y * q.y + q.z * q.z

/-- The normalization block of `TreadmillVisualTracker::GetPose`
(`driver_treadmill.cpp:602`): divide by the length when it exceeds
`0.0001`, otherwise leave the quaternion untouched. -/
def normalizeQuat (q : QuatR) : QuatR :=
  let qLength := Real.sqrt q.normSq
  if 0.0001 < qLength then
    { w := q.w / qLength, x := q.x / qLength, y := q.y / qLength, z := q.z / qLength }
  else q

/-- The quaternion constructed by `TreadmillDevice::GetPose`
(`driver_treadmill.cpp:320`): half-angle rotation about Y with the negated
sine, no further normalization step. -/
def TreadmillDevice_GetPose_qRotation (yawDeg : ℝ) : QuatR :=
  let theta := yawDeg * DEG2RAD
  let half := theta * 0.5
  let c := Real.cos half
  let s := Real.sin half
  { w := c, x := 0, y := -s, z := 0 }

/-- The quaternion produced by `TreadmillVisualTracker::GetPose`
(`driver_treadmill.cpp:589`): the same construction followed by the
normalization block. -/
def TreadmillVisualTracker_GetPose_qRotation (yawDeg : ℝ) : QuatR :=
  let theta := yawDeg * DEG2RAD
  let half := theta * 0.5
  let c := Real.cos half
  let s := Real.sin half
  normalizeQuat { w := c, x := 0, y := -s, z := 0 }

/-- `std::clamp` over ℝ. -/
def clampR (v lo hi : ℝ) : ℝ :=
  if v < lo then lo else if hi < v then hi else v

/-- The movement-analysis block of `TreadmillVisualTracker::GetPose`
(`driver_treadmill.cpp:530`), on a tick where a valid current and previous
headset sample exist: `some` of the angle deviation in degrees when a
classification is made, `none` when the analysis is skipped (displacement
at most 5 cm, or rotated joystick vector of length at most `0.01`). -/
def validatorDeviation (currentHmdX currentHmdZ lastHmdX lastHmdZ
    joystickX joystickY yawDeg : ℝ) : Option ℝ :=
  let actualDeltaX := currentHmdX - lastHmdX
  let actualDeltaZ := currentHmdZ - lastHmdZ
  let actualDistance := Real.sqrt (actualDeltaX * actualDeltaX + actualDeltaZ * actualDeltaZ)
  if 0.05 < actualDistance then
    let actualDirX := actualDeltaX / actualDistance
    let actualDirZ := actualDeltaZ / actualDistance
    let yawRad := yawDeg * DEG2RAD
    let sinYaw := Real.sin yawRad
    let cosYaw := Real.cos yawRad
    let expectedWorldX := joystickX * cosYaw - joystickY * sinYaw
    let expectedWorldZ := joystickX * sinYaw + joystickY * cosYaw
    let expectedLength := Real.sqrt (expectedWorldX * expectedWorldX + expectedWorldZ * expectedWorldZ)
    if 0.01 < expectedLength then
      let ex := expectedWorldX / expectedLength
      let ez := expectedWorldZ / expectedLength
      let dotProduct := clampR (actualDirX * ex + actualDirZ * ez) (-1) 1
      some (Real.arccos dotProduct * 180 / PI_LITERAL)
    else none
  else none

/-- The mismatch branch (`driver_treadmill.cpp:567`): a mismatch is
reported exactly when a classification was made and the deviation exceeds
5 degrees. -/
def validatorMismatch (currentHmdX currentHmdZ lastHmdX lastHmdZ
    joystickX joystickY yawDeg : ℝ) : Prop :=
  match validatorDeviation currentHmdX currentHmdZ lastHmdX lastHmdZ
      joystickX joystickY yawDeg with
  | some a => 5 < a
  | none => False

/-- The horizontal displacement magnitude of the validator tick
(`actualDistance`, `driver_treadmill.cpp:535`). -/
def actualDistanceR (cx cz lx lz : ℝ) : ℝ :=
  Real.sqrt ((cx - lx) * (cx - lx) + (cz - lz) * (cz - lz))

/-- Expected world direction, X component: the joystick vector rotated by
the smoothed yaw (`driver_treadmill.cpp:553`). -/
def expectedWorldXR (jx jy yaw : ℝ) : ℝ :=
  jx * Real.cos (yaw * DEG2RAD) - jy * Real.sin (yaw * DEG2RAD)

/-- Expected world direction, Z component (`driver_treadmill.cpp:554`). -/
def expectedWorldZR (jx jy yaw : ℝ) : ℝ :=
  jx * Real.sin (yaw * DEG2RAD) + jy * Real.cos (yaw * DEG2RAD)

/-- Length of the rotated joystick vector (`driver_treadmill.cpp:556`). -/
def expectedLengthR (jx jy yaw : ℝ) : ℝ :=
  Real.sqrt (expectedWorldXR jx jy yaw * expectedWorldXR jx jy yaw +
    expectedWorldZR jx jy yaw * expectedWorldZR jx jy yaw)

/-- The angle deviation the validator computes when it classifies:
`acos(clamp(dot(actualDir, expectedDir), -1, 1))` converted to degrees. -/
def angleDeviationR (cx cz lx lz jx jy yaw : ℝ) : ℝ :=
  Real.arccos (clampR
    ((cx - lx) / actualDistanceR cx cz lx lz *
        (expectedWorldXR jx jy yaw / expectedLengthR jx jy yaw) +
      (cz - lz) / actualDistanceR cx cz lx lz *
        (expectedWorldZR jx jy yaw / expectedLengthR jx jy yaw))
    (-1) 1) * 180 / PI_LITERAL

end

/-! ## Concrete configurations used as test inputs -/

/-- A config with Additive mode and no target filter (all other fields at
the `treadmill_input.h` defaults). -/
def cfgAdditiveAll : Config :=
  { enabled := true, speedMultiplier := 3/2, deadzone := 1/10, smoothing := 3/10,
    targetControllerIndex := -1, inputMode := InputMode.Additive,
    actionPatterns := defaultActionPatterns }

/-- A config with Override mode and the target selector set to controller
index 1. -/
def cfgOverrideTarget1 : Config :=
  { enabled := true, speedMultiplier := 3/2, deadzone := 1/10, smoothing := 3/10,
    targetControllerIndex := 1, inputMode := InputMode.Override,
    actionPatterns := defaultActionPatterns }

/-- A config with smoothing factor 1/2, zero deadzone and unit speed
multiplier. -/
def cfgSmoothHalf : Config :=
  { enabled := true, speedMultiplier := 1, deadzone := 0, smoothing := 1/2,
    targetControllerIndex := -1, inputMode := InputMode.Smart,
    actionPatterns := defaultActionPatterns }

/-- The wrapped yaw difference the driver's handler feeds into the EMA
step. -/
def driverYawDiff (s : XYState) (r : ℚ) : ℚ := wrapDiff180 (r - s.yaw_smoothed)

/-- The smoothed yaw stored by the driver's handler. -/
def driverNewYaw (alpha : ℚ) (s : XYState) (r : ℚ) (gx gy : ℤ) : ℚ :=
  (OnOmniDataDriver alpha s r gx gy).yaw_smoothed

/-- A driver state whose smoothed yaw is 350 degrees. -/
def stateYaw350 : XYState :=
  { x := 0, y := 0, yaw := 0, x_smoothed := 0, y_smoothed := 0, yaw_smoothed := 350 }

/-! # Theorems -/

/-! ## C4: deadzone rescaling -/

/-- C4: for `d ∈ [0,1)`, `ApplyDeadzone` yields 0 below the deadzone and
`sign(v)·(|v|-d)/(1-d)` from the deadzone on; both cases give 0 at
`|v| = d`, and the output magnitude is exactly 1 at `|v| = 1`. -/
theorem C4_applyDeadzone_spec (v d : ℚ) (hd0 : 0 ≤ d) (hd1 : d < 1) :
    (|v| < d → ApplyDeadzone v d = 0) ∧
    (d ≤ |v| → ApplyDeadzone v d =
      (if 0 < v then 1 else if v < 0 then -1 else 0) * (|v| - d) / (1 - d)) ∧
    (|v| = d → ApplyDeadzone v d = 0) ∧
    (|v| = 1 → |ApplyDeadzone v d| = 1) := by
  have h1d : (1 : ℚ) - d ≠ 0 := by linarith
  refine ⟨?_, ?_, ?_, ?_⟩
  · intro h
    simp [ApplyDeadzone, h]
  · intro h
    rw [ApplyDeadzone, if_neg (not_lt.mpr h)]
    rcases lt_trichotomy v 0 with hv | hv | hv
    · have hnp : ¬ 0 < v := by linarith
      simp [hnp, hv]
    · subst hv
      have hd : d = 0 := le_antisymm (by simpa using h) hd0
      subst hd
      norm_num
    · simp [hv]
  · intro h
    have hne : ¬ |v| < d := by rw [h]; exact lt_irrefl d
    rw [ApplyDeadzone, if_neg hne, h]
    simp
  · intro h
    have hne : ¬ |v| < d := by rw [h]; linarith
    rw [ApplyDeadzone, if_neg hne, h]
    split_ifs with hv
    · rw [one_mul, div_self h1d, abs_one]
    · rw [neg_one_mul, neg_div, div_self h1d, abs_neg, abs_one]

/-- C4 witness at `v = -1`, `d = 1/10`. -/
theorem C4_applyDeadzone_spec_witness :
    (|(-1 : ℚ)| < 1/10 → ApplyDeadzone (-1) (1/10) = 0) ∧
    ((1/10 : ℚ) ≤ |(-1 : ℚ)| → ApplyDeadzone (-1) (1/10) =
      (if (0 : ℚ) < -1 then 1 else if (-1 : ℚ) < 0 then -1 else 0) *
        (|(-1 : ℚ)| - 1/10) / (1 - 1/10)) ∧
    (|(-1 : ℚ)| = 1/10 → ApplyDeadzone (-1) (1/10) = 0) ∧
    (|(-1 : ℚ)| = 1 → |ApplyDeadzone (-1) (1/10)| = 1) :=
  C4_applyDeadzone_spec (-1) (1/10) (by norm_num) (by norm_num)

/-! ## C3: Smart mode is extensionally Override -/

/-- C3: in all three interception paths the `Smart` case of the injection
policy produces exactly the output of the `Override` case, and `Override`
itself injects the treadmill vector with the active flag set iff the
treadmill is active, returning the host's data unchanged otherwise. -/
theorem C3_smart_is_override (d : InputAnalogActionData) (ax : VRControllerAxis)
    (st : XrActionStateVector2f) (tx ty : ℚ) :
    analogActionInject InputMode.Smart d tx ty =
      analogActionInject InputMode.Override d tx ty ∧
    controllerStateInject InputMode.Smart ax tx ty =
      controllerStateInject InputMode.Override ax tx ty ∧
    xrVector2fInject InputMode.Smart st tx ty =
      xrVector2fInject InputMode.Override st tx ty ∧
    analogActionInject InputMode.Override d tx ty =
      (if treadmillActiveQ tx ty then
        { x := tx, y := ty, bActive := true } else d) := by
  refine ⟨rfl, ?_, ?_, rfl⟩
  · unfold controllerStateInject
    split_ifs <;> rfl
  · cases hb : treadmillActiveQ tx ty <;>
      simp [xrVector2fInject, hb]

/-! ## C2: Additive mode -/

/-- Evaluation helper: the activity test is true when one axis exceeds the
threshold. -/
theorem treadmillActiveQ_eq_true {tx ty : ℚ} (h : 1/20 < |tx| ∨ 1/20 < |ty|) :
    treadmillActiveQ tx ty = true := by
  simp only [treadmillActiveQ, Bool.or_eq_true, decide_eq_true_eq]
  exact h

/-- Evaluation helper: the activity test is false when both axes are at or
below the threshold. -/
theorem treadmillActiveQ_eq_false {tx ty : ℚ} (h1 : |tx| ≤ 1/20) (h2 : |ty| ≤ 1/20) :
    treadmillActiveQ tx ty = false := by
  simp only [treadmillActiveQ, Bool.or_eq_false_iff, decide_eq_false_iff_not, not_lt]
  exact ⟨h1, h2⟩

/-- C2 counterexample: with treadmill value `(0.04, 0)` — inactive, since
`0.04 ≤ 0.05` — the legacy `GetControllerState` path under Additive leaves
the host's `(0.5, 0)` unchanged, although `clamp(0.5 + 0.04, -1, 1) = 0.54`
differs from it. -/
theorem C2_counterexample :
    Wrapped_GetControllerState cfgAdditiveAll true 1
      { x := 1/2, y := 0 } (1/25) 0 = { x := 1/2, y := 0 } ∧
    clampQ (1/2 + 1/25) (-1) 1 ≠ (1/2 : ℚ) := by
  have hact : treadmillActiveQ (1/25 : ℚ) 0 = false :=
    treadmillActiveQ_eq_false
      (by rw [abs_of_nonneg (by norm_num : (0 : ℚ) ≤ 1/25)]; norm_num)
      (by rw [abs_zero]; norm_num)
  constructor
  · norm_num [Wrapped_GetControllerState, cfgAdditiveAll, controllerStateInject, hact]
  · norm_num [clampQ]

/-- C2 (amended): under `Additive`, the analog-action path always returns
the per-axis clamped sum with active flag `current.active OR
treadmillActive`; the legacy controller-state path applies the clamped sum
only when the treadmill is active and passes the host state through
unchanged otherwise. -/
theorem C2_additive_paths (cfg : Config) (hmode : cfg.inputMode = InputMode.Additive)
    (hsel : cfg.targetControllerIndex < 0)
    (d : InputAnalogActionData) (ax : VRControllerAxis) (tx ty : ℚ)
    (restrict : ℤ) (deviceIndex : ℕ) :
    Wrapped_GetAnalogActionData cfg true true true restrict d tx ty =
      { x := clampQ (d.x + tx) (-1) 1, y := clampQ (d.y + ty) (-1) 1,
        bActive := d.bActive || treadmillActiveQ tx ty } ∧
    (treadmillActiveQ tx ty = true →
      Wrapped_GetControllerState cfg true deviceIndex ax tx ty =
        { x := clampQ (ax.x + tx) (-1) 1, y := clampQ (ax.y + ty) (-1) 1 }) ∧
    (treadmillActiveQ tx ty = false →
      Wrapped_GetControllerState cfg true deviceIndex ax tx ty = ax) := by
  have hskip : ¬ (0 ≤ cfg.targetControllerIndex ∧
      (deviceIndex : ℤ) ≠ cfg.targetControllerIndex) := by
    rintro ⟨h0, -⟩
    omega
  refine ⟨?_, ?_, ?_⟩
  · cases hb : treadmillActiveQ tx ty <;>
      simp [Wrapped_GetAnalogActionData, analogActionInject, hmode, hb]
  · intro hb
    simp [Wrapped_GetControllerState, hskip, controllerStateInject, hmode, hb]
  · intro hb
    simp [Wrapped_GetControllerState, hskip, controllerStateInject, hmode, hb]

/-- C2 witness at a concrete Additive config and inputs. -/
theorem C2_additive_paths_witness :
    (Wrapped_GetAnalogActionData cfgAdditiveAll true true true 0
      { x := 1/4, y := 0, bActive := false } (1/2) 0 =
      { x := clampQ (1/4 + 1/2) (-1) 1, y := clampQ (0 + 0) (-1) 1,
        bActive := false || treadmillActiveQ (1/2) 0 } ∧
    (treadmillActiveQ (1/2) 0 = true →
      Wrapped_GetControllerState cfgAdditiveAll true 0
        { x := 1/4, y := 0 } (1/2) 0 =
        { x := clampQ (1/4 + 1/2) (-1) 1, y := clampQ (0 + 0) (-1) 1 }) ∧
    (treadmillActiveQ (1/2) 0 = false →
      Wrapped_GetControllerState cfgAdditiveAll true 0
        { x := 1/4, y := 0 } (1/2) 0 = { x := 1/4, y := 0 })) :=
  C2_additive_paths cfgAdditiveAll rfl (by decide)
    { x := 1/4, y := 0, bActive := false } { x := 1/4, y := 0 } (1/2) 0 0 0

/-! ## C6: target filtering -/

/-- C6 counterexample: with the target selector configured to controller 1
and an analog-action read restricted to device 2, the analog path still
injects — it consults no device index at all — so the read is not passed
through unchanged. -/
theorem C6_counterexample :
    (0 : ℤ) ≤ cfgOverrideTarget1.targetControllerIndex ∧
    (2 : ℤ) ≠ cfgOverrideTarget1.targetControllerIndex ∧
    Wrapped_GetAnalogActionData cfgOverrideTarget1 true true true 2
      { x := 0, y := 0, bActive := false } 1 0 ≠
      { x := 0, y := 0, bActive := false } := by
  have hact : treadmillActiveQ (1 : ℚ) 0 = true :=
    treadmillActiveQ_eq_true (Or.inl (by rw [abs_one]; norm_num))
  refine ⟨by decide, by decide, ?_⟩
  norm_num [Wrapped_GetAnalogActionData, analogActionInject, cfgOverrideTarget1, hact]

/-- C6 (amended): when a target controller is configured, the two legacy
controller-state paths pass a non-matching device through unchanged in
every mode; the analog-action path performs no such filtering. -/
theorem C6_target_filter (cfg : Config) (hostOk : Bool) (deviceIndex : ℕ)
    (ax : VRControllerAxis) (tx ty : ℚ)
    (hsel : 0 ≤ cfg.targetControllerIndex)
    (hne : (deviceIndex : ℤ) ≠ cfg.targetControllerIndex) :
    Wrapped_GetControllerState cfg hostOk deviceIndex ax tx ty = ax ∧
    Wrapped_GetControllerStateWithPose cfg hostOk deviceIndex ax tx ty = ax := by
  cases hostOk <;>
    simp [Wrapped_GetControllerState, Wrapped_GetControllerStateWithPose, hsel, hne]

/-- C6 witness: target 1, intercepted device 2. -/
theorem C6_target_filter_witness :
    (Wrapped_GetControllerState cfgOverrideTarget1 true 2
      { x := 0, y := 0 } 1 0 = { x := 0, y := 0 } ∧
    Wrapped_GetControllerStateWithPose cfgOverrideTarget1 true 2
      { x := 0, y := 0 } 1 0 = { x := 0, y := 0 }) :=
  C6_target_filter cfgOverrideTarget1 true 2 { x := 0, y := 0 } 1 0
    (by decide) (by decide)

/-! ## C10: the active flag persists -/

/-- Once active, the treadmill state stays active under any operation
sequence. -/
theorem wrapperRun_preserves_active (cfg : Config) (ops : List WrapperOp) :
    ∀ s : WrapperProcess, s.treadmill.active = true →
      (wrapperRun cfg s ops).treadmill.active = true := by
  induction ops with
  | nil =>
      intro s hs
      simpa [wrapperRun] using hs
  | cons op rest ih =>
      intro s hs
      cases op <;>
        exact ih _ (by simp [wrapperStep, OnOmniDataWrapper, hs])

/-- C10: after any operation sequence containing an ingest, the `active`
field reads `true`, and no single operation (further ingests, reads,
policy applications, shutdown) can turn it from `true` to `false`. -/
theorem C10_active_persists (cfg : Config) (s : WrapperProcess)
    (pre post : List WrapperOp) (ts : ℕ) (ring : ℚ) (gx gy : ℤ) :
    (wrapperRun cfg s
      (pre ++ WrapperOp.omniData ts ring gx gy :: post)).treadmill.active = true ∧
    ∀ (t : WrapperProcess) (op : WrapperOp),
      (wrapperStep cfg t op).treadmill.active = true ∨
      (wrapperStep cfg t op).treadmill.active = t.treadmill.active := by
  constructor
  · induction pre generalizing s with
    | nil =>
        exact wrapperRun_preserves_active cfg post _
          (by simp [wrapperRun, wrapperStep, OnOmniDataWrapper])
    | cons op rest ih =>
        simpa [wrapperRun] using ih (wrapperStep cfg s op)
  · intro t op
    cases op with
    | omniData ts2 ring2 gx2 gy2 =>
        left
        simp [wrapperStep, OnOmniDataWrapper]
    | shutdown => right; rfl
    | readState => right; rfl
    | analogRead a b c => right; rfl
    | controllerRead a b => right; rfl

/-! ## C9: EMA convergence -/

/-- Closed form of the iterated EMA error. -/
theorem smoothedIter_sub_eq (alpha raw s0 : ℚ) :
    ∀ n, smoothedIter alpha raw s0 n - raw = (1 - alpha) ^ n * (s0 - raw) := by
  intro n
  induction n with
  | zero => simp [smoothedIter]
  | succ n ih =>
      have hstep : smoothedIter alpha raw s0 (n + 1) =
          ApplySmoothing (smoothedIter alpha raw s0 n) raw alpha := rfl
      rw [hstep, ApplySmoothing, pow_succ]
      have : smoothedIter alpha raw s0 n = (1 - alpha) ^ n * (s0 - raw) + raw := by
        linarith [ih]
      rw [this]
      ring

/-- C9: for `0 < α < 1` and a constant raw sample, each `ApplySmoothing`
step contracts the error by the factor `1 - α`, the error strictly
decreases while it is nonzero, and the iterates converge to the raw
sample. -/
theorem C9_ema_convergence (alpha raw s0 : ℚ) (h0 : 0 < alpha) (h1 : alpha < 1) :
    (∀ n, |smoothedIter alpha raw s0 (n + 1) - raw| =
      (1 - alpha) * |smoothedIter alpha raw s0 n - raw|) ∧
    (∀ n, smoothedIter alpha raw s0 n ≠ raw →
      |smoothedIter alpha raw s0 (n + 1) - raw| <
        |smoothedIter alpha raw s0 n - raw|) ∧
    Filter.Tendsto (fun n => ((smoothedIter alpha raw s0 n : ℚ) : ℝ))
      Filter.atTop (nhds ((raw : ℚ) : ℝ)) := by
  have ha : (0 : ℚ) < 1 - alpha := by linarith
  have hstep : ∀ n, smoothedIter alpha raw s0 (n + 1) - raw =
      (1 - alpha) * (smoothedIter alpha raw s0 n - raw) := by
    intro n
    have h : smoothedIter alpha raw s0 (n + 1) =
        ApplySmoothing (smoothedIter alpha raw s0 n) raw alpha := rfl
    rw [h, ApplySmoothing]
    ring
  have habs : ∀ n, |smoothedIter alpha raw s0 (n + 1) - raw| =
      (1 - alpha) * |smoothedIter alpha raw s0 n - raw| := by
    intro n
    rw [hstep n, abs_mul, abs_of_pos ha]
  refine ⟨habs, ?_, ?_⟩
  · intro n hn
    have hpos : 0 < |smoothedIter alpha raw s0 n - raw| :=
      abs_pos.mpr (sub_ne_zero.mpr hn)
    rw [habs n]
    nlinarith
  · have hform : ∀ n, ((smoothedIter alpha raw s0 n : ℚ) : ℝ) =
        ((raw : ℚ) : ℝ) + (((s0 : ℚ) : ℝ) - ((raw : ℚ) : ℝ)) *
          ((1 : ℝ) - ((alpha : ℚ) : ℝ)) ^ n := by
      intro n
      have h := smoothedIter_sub_eq alpha raw s0 n
      have h2 : smoothedIter alpha raw s0 n = raw + (1 - alpha) ^ n * (s0 - raw) := by
        linarith [h]
      rw [h2]
      push_cast
      ring
    have h0r : ((0 : ℝ) : ℝ) ≤ (1 : ℝ) - ((alpha : ℚ) : ℝ) := by
      have : ((alpha : ℚ) : ℝ) < 1 := by exact_mod_cast h1
      linarith
    have h1r : (1 : ℝ) - ((alpha : ℚ) : ℝ) < 1 := by
      have : (0 : ℝ) < ((alpha : ℚ) : ℝ) := by exact_mod_cast h0
      linarith
    have hlim : Filter.Tendsto (fun n : ℕ => ((1 : ℝ) - ((alpha : ℚ) : ℝ)) ^ n)
        Filter.atTop (nhds 0) :=
      tendsto_pow_atTop_nhds_zero_of_lt_one (by simpa using h0r) h1r
    have hsum : Filter.Tendsto
        (fun n : ℕ => ((raw : ℚ) : ℝ) + (((s0 : ℚ) : ℝ) - ((raw : ℚ) : ℝ)) *
          ((1 : ℝ) - ((alpha : ℚ) : ℝ)) ^ n)
        Filter.atTop
        (nhds (((raw : ℚ) : ℝ) + (((s0 : ℚ) : ℝ) - ((raw : ℚ) : ℝ)) * 0)) :=
      Filter.Tendsto.const_add _ (Filter.Tendsto.const_mul _ hlim)
    refine Filter.Tendsto.congr (fun n => (hform n).symm) ?_
    simpa using hsum

/-- C9 witness at `α = 1/2`, constant raw sample 1, start 0. -/
theorem C9_ema_convergence_witness :
    ((∀ n, |smoothedIter (1/2) 1 0 (n + 1) - 1| =
      (1 - 1/2) * |smoothedIter (1/2) 1 0 n - 1|) ∧
    (∀ n, smoothedIter (1/2) 1 0 n ≠ 1 →
      |smoothedIter (1/2) 1 0 (n + 1) - 1| < |smoothedIter (1/2) 1 0 n - 1|) ∧
    Filter.Tendsto (fun n => ((smoothedIter (1/2) 1 0 n : ℚ) : ℝ))
      Filter.atTop (nhds ((1 : ℚ) : ℝ))) :=
  C9_ema_convergence (1/2) 1 0 (by norm_num) (by norm_num)

/-! ## C1: yaw ingestion -/

/-- C1 counterexample: in the OpenVR wrapper's `OnOmniData` (and equally in
the OpenXR layer's), with smoothing factor `1/2 ∈ (0,1)` and a raw ring
angle of 90 differing from the stored yaw 0, the stored yaw after ingest is
exactly the raw ring angle: the shim handlers do not smooth the yaw at
all. -/
theorem C1_counterexample :
    (0 : ℚ) < cfgSmoothHalf.smoothing ∧ cfgSmoothHalf.smoothing < 1 ∧
    (90 : ℚ) ≠ TreadmillState.init.yaw ∧
    (OnOmniDataWrapper cfgSmoothHalf TreadmillState.init 0 90 127 127).yaw = 90 ∧
    (OnOmniDataXrLayer cfgSmoothHalf TreadmillState.init 0 90 127 127).yaw = 90 := by
  refine ⟨by norm_num [cfgSmoothHalf], by norm_num [cfgSmoothHalf],
    by norm_num [TreadmillState.init], rfl, rfl⟩

/-- C1 (amended): the driver's handler circularly smooths the yaw — the
wrapped difference lies in `[-180, 180]` and is congruent to
`newRaw - smoothedYaw` mod 360, the stored yaw lies in `[0, 360)` and is
congruent to `smoothedYaw + α·diff` mod 360, and for `0 < α < 1` it never
equals a raw angle that differs from the current smoothed yaw — while the
OpenVR-wrapper and OpenXR-layer handlers store the raw ring angle
unsmoothed. -/
theorem C1_driver_yaw_circular_ema (alpha r : ℚ) (s : XYState) (gx gy : ℤ)
    (hs0 : 0 ≤ s.yaw_smoothed) (hs1 : s.yaw_smoothed < 360)
    (hr0 : 0 ≤ r) (hr1 : r < 360) (ha0 : 0 < alpha) (ha1 : alpha < 1) :
    (-180 ≤ driverYawDiff s r ∧ driverYawDiff s r ≤ 180 ∧
      ∃ k : ℤ, driverYawDiff s r = r - s.yaw_smoothed + 360 * k) ∧
    (0 ≤ driverNewYaw alpha s r gx gy ∧ driverNewYaw alpha s r gx gy < 360 ∧
      ∃ m : ℤ, driverNewYaw alpha s r gx gy =
        s.yaw_smoothed + alpha * driverYawDiff s r + 360 * m) ∧
    (r ≠ s.yaw_smoothed → driverNewYaw alpha s r gx gy ≠ r) ∧
    (∀ (cfg : Config) (hs : TreadmillState) (ts : ℕ),
      (OnOmniDataWrapper cfg hs ts r gx gy).yaw = r ∧
      (OnOmniDataXrLayer cfg hs ts r gx gy).yaw = r) := by
  have hdchar : -180 ≤ driverYawDiff s r ∧ driverYawDiff s r ≤ 180 ∧
      ∃ k : ℤ, driverYawDiff s r = r - s.yaw_smoothed + 360 * k := by
    unfold driverYawDiff wrapDiff180
    by_cases h1 : (180 : ℚ) < r - s.yaw_smoothed
    · have h2 : ¬ (r - s.yaw_smoothed - 360 < -180) := by linarith
      simp only [if_pos h1, if_neg h2]
      exact ⟨by linarith, by linarith, ⟨-1, by push_cast; ring⟩⟩
    · by_cases h2 : r - s.yaw_smoothed < -180
      · simp only [if_neg h1, if_pos h2]
        exact ⟨by linarith, by linarith, ⟨1, by push_cast; ring⟩⟩
      · simp only [if_neg h1, if_neg h2]
        exact ⟨by linarith, by linarith, ⟨0, by push_cast; ring⟩⟩
  obtain ⟨hd1, hd2, k, hk⟩ := hdchar
  have had1 : -180 < alpha * driverYawDiff s r := by nlinarith
  have had2 : alpha * driverYawDiff s r < 180 := by nlinarith
  have hnew : driverNewYaw alpha s r gx gy =
      wrap360 (s.yaw_smoothed + alpha * driverYawDiff s r) := rfl
  have hwchar : 0 ≤ wrap360 (s.yaw_smoothed + alpha * driverYawDiff s r) ∧
      wrap360 (s.yaw_smoothed + alpha * driverYawDiff s r) < 360 ∧
      ∃ m : ℤ, wrap360 (s.yaw_smoothed + alpha * driverYawDiff s r) =
        s.yaw_smoothed + alpha * driverYawDiff s r + 360 * m := by
    unfold wrap360
    by_cases hw1 : s.yaw_smoothed + alpha * driverYawDiff s r < 0
    · have h2 : ¬ ((360 : ℚ) ≤ s.yaw_smoothed + alpha * driverYawDiff s r + 360) := by
        linarith
      simp only [if_pos hw1, if_neg h2]
      exact ⟨by linarith, by linarith, ⟨1, by push_cast; ring⟩⟩
    · by_cases hw2 : (360 : ℚ) ≤ s.yaw_smoothed + alpha * driverYawDiff s r
      · simp only [if_neg hw1, if_pos hw2]
        exact ⟨by linarith, by linarith, ⟨-1, by push_cast; ring⟩⟩
      · simp only [if_neg hw1, if_neg hw2]
        exact ⟨by linarith, by linarith, ⟨0, by push_cast; ring⟩⟩
  obtain ⟨hw0, hw360, m, hm⟩ := hwchar
  refine ⟨⟨hd1, hd2, k, hk⟩,
    ⟨by rw [hnew]; exact hw0, by rw [hnew]; exact hw360, ⟨m, by rw [hnew]; exact hm⟩⟩,
    ?_, ?_⟩
  · intro hne heq
    rw [hnew, hm] at heq
    have hlin : driverYawDiff s r - alpha * driverYawDiff s r =
        360 * ((k : ℚ) + (m : ℚ)) := by linarith [hk, heq]
    have hb1 : driverYawDiff s r - alpha * driverYawDiff s r < 360 := by nlinarith
    have hb2 : -360 < driverYawDiff s r - alpha * driverYawDiff s r := by nlinarith
    have hkm : k + m = 0 := by
      have hc1 : 360 * ((k : ℚ) + (m : ℚ)) < 360 * 1 := by
        rw [← hlin]
        linarith
      have hc2 : 360 * (-1 : ℚ) < 360 * ((k : ℚ) + (m : ℚ)) := by
        rw [← hlin]
        linarith
      have hq1 : ((k + m : ℤ) : ℚ) < 1 := by
        push_cast
        nlinarith
      have hq2 : (-1 : ℚ) < ((k + m : ℤ) : ℚ) := by
        push_cast
        nlinarith
      have : (k + m : ℤ) < 1 := by exact_mod_cast hq1
      have : (-1 : ℤ) < k + m := by exact_mod_cast hq2
      omega
    have hd0 : driverYawDiff s r = 0 := by
      have : driverYawDiff s r * (1 - alpha) = 0 := by
        have : ((k : ℚ) + (m : ℚ)) = 0 := by exact_mod_cast hkm
        nlinarith [hlin]
      rcases mul_eq_zero.mp this with h | h
      · exact h
      · exfalso
        have : (1 : ℚ) - alpha > 0 := by linarith
        linarith
    rw [hd0] at hk
    have hk0 : k = 0 := by
      have hc1 : ((k : ℤ) : ℚ) < 1 := by nlinarith [hk]
      have hc2 : (-1 : ℚ) < ((k : ℤ) : ℚ) := by nlinarith [hk]
      have h1 : (k : ℤ) < 1 := by exact_mod_cast hc1
      have h2 : (-1 : ℤ) < k := by exact_mod_cast hc2
      omega
    rw [hk0] at hk
    push_cast at hk
    exact hne (by linarith)
  · intro cfg hs ts
    exact ⟨rfl, rfl⟩

/-- C1 witness at `α = 1/2`, smoothed yaw 350, raw ring angle 10 (a wrap
across the 0/360 boundary). -/
theorem C1_driver_yaw_circular_ema_witness :
    ((-180 ≤ driverYawDiff stateYaw350 10 ∧ driverYawDiff stateYaw350 10 ≤ 180 ∧
      ∃ k : ℤ, driverYawDiff stateYaw350 10 =
        10 - stateYaw350.yaw_smoothed + 360 * k) ∧
    (0 ≤ driverNewYaw (1/2) stateYaw350 10 127 127 ∧
      driverNewYaw (1/2) stateYaw350 10 127 127 < 360 ∧
      ∃ m : ℤ, driverNewYaw (1/2) stateYaw350 10 127 127 =
        stateYaw350.yaw_smoothed + 1/2 * driverYawDiff stateYaw350 10 + 360 * m) ∧
    ((10 : ℚ) ≠ stateYaw350.yaw_smoothed →
      driverNewYaw (1/2) stateYaw350 10 127 127 ≠ 10) ∧
    (∀ (cfg : Config) (hs : TreadmillState) (ts : ℕ),
      (OnOmniDataWrapper cfg hs ts 10 127 127).yaw = 10 ∧
      (OnOmniDataXrLayer cfg hs ts 10 127 127).yaw = 10)) :=
  C1_driver_yaw_circular_ema (1/2) 10 stateYaw350 127 127
    (by norm_num [stateYaw350]) (by norm_num [stateYaw350])
    (by norm_num) (by norm_num) (by norm_num) (by norm_num)

/-! ## C5: action-name classifier -/

/-- The C++ substring search finds the needle exactly when it is an infix
of the haystack. -/
theorem cppFindExists_iff (needle : List Char) :
    ∀ hay : List Char, cppFindExists hay needle = true ↔ needle <:+: hay := by
  intro hay
  induction hay with
  | nil =>
      simp only [cppFindExists, decide_eq_true_eq]
      exact (List.infix_nil).symm
  | cons c tl ih =>
      simp only [cppFindExists, Bool.or_eq_true, decide_eq_true_eq, ih]
      constructor
      · rintro (h | h)
        · exact List.infix_cons_iff.mpr (Or.inl (List.prefix_iff_eq_take.mpr h.symm))
        · exact List.infix_cons h
      · intro h
        rcases List.infix_cons_iff.mp h with h | h
        · exact Or.inl (List.prefix_iff_eq_take.mp h).symm
        · exact Or.inr h

/-- The C++ size-guarded drop comparison is the suffix relation. -/
theorem suffixCheck_eq_decide (t c : List Char) :
    (decide (c.length ≤ t.length) &&
      decide (t.drop (t.length - c.length) = c)) = decide (c <:+ t) := by
  rw [← Bool.decide_and, decide_eq_decide]
  constructor
  · rintro ⟨hl, hd⟩
    exact List.suffix_iff_eq_drop.mpr hd.symm
  · intro h
    exact ⟨h.length_le, (List.suffix_iff_eq_drop.mp h).symm⟩

/-- The C++ take comparison is the prefix relation. -/
theorem prefixCheck_eq_decide (t c : List Char) :
    decide (t.take c.length = c) = decide (c <+: t) := by
  rw [decide_eq_decide]
  constructor
  · intro h
    exact List.prefix_iff_eq_take.mpr h.symm
  · intro h
    exact (List.prefix_iff_eq_take.mp h).symm

/-- Bool form of the substring-search equivalence. -/
theorem cppFindExists_eq_decide (t c : List Char) :
    cppFindExists t c = decide (c <:+: t) := by
  by_cases h : c <:+: t
  · rw [decide_eq_true h]
    exact (cppFindExists_iff c t).mpr h
  · rw [decide_eq_false h]
    have hiff := cppFindExists_iff c t
    rw [Bool.eq_false_iff]
    intro hc
    exact h (hiff.mp hc)

/-- C5 counterexample: the empty pattern never matches in the code, while
the spec's grammar (no wildcard, empty core) requires folded equality and
therefore accepts the empty name. -/
theorem C5_counterexample :
    MatchesPattern ([] : List Char) ([] : List Char) = false ∧
    specGrammarMatch ([] : List Char) ([] : List Char) = true :=
  ⟨rfl, rfl⟩

/-- C5 (amended): for every nonempty pattern, `MatchesPattern` agrees with
the spec's wildcard grammar on the case-folded strings (the empty pattern
is rejected outright); `"LeftHand/Locomotion/Move"` matches `"*move*"` and
is classified as movement by the default pattern set, while `"Jump"` is
not. -/
theorem C5_classifier (text pattern : List Char) :
    MatchesPattern text pattern =
      (!pattern.isEmpty && specGrammarMatch text pattern) ∧
    MatchesPattern ("LeftHand/Locomotion/Move").toList ("*move*").toList = true ∧
    classifyMovement defaultActionPatterns ("LeftHand/Locomotion/Move").toList = true ∧
    classifyMovement defaultActionPatterns ("Jump").toList = false := by
  refine ⟨?_, by decide, by decide, by decide⟩
  cases pattern with
  | nil => rfl
  | cons p ps =>
      have hne : (strLower (p :: ps)).isEmpty = false := rfl
      simp only [MatchesPattern, specGrammarMatch, hne, Bool.false_eq_true,
        if_false, List.isEmpty_cons, Bool.not_false, Bool.true_and]
      simp only [cppFindExists_eq_decide, suffixCheck_eq_decide, prefixCheck_eq_decide]

/-! ## C7: pose quaternion synthesis -/

/-- C7: both pose-producing paths synthesize exactly the quaternion
`(w = cos(θ/2), x = 0, y = -sin(θ/2), z = 0)` from the smoothed yaw; the
result has unit length, so it is fixed by the tracker path's
re-normalization and the two paths agree. -/
theorem C7_pose_quaternion (yawDeg : ℝ) :
    TreadmillDevice_GetPose_qRotation yawDeg =
      { w := Real.cos (yawDeg * DEG2RAD / 2), x := 0,
        y := -Real.sin (yawDeg * DEG2RAD / 2), z := 0 } ∧
    TreadmillVisualTracker_GetPose_qRotation yawDeg =
      TreadmillDevice_GetPose_qRotation yawDeg ∧
    (TreadmillDevice_GetPose_qRotation yawDeg).normSq = 1 ∧
    normalizeQuat (TreadmillDevice_GetPose_qRotation yawDeg) =
      TreadmillDevice_GetPose_qRotation yawDeg := by
  have harg : yawDeg * DEG2RAD * 0.5 = yawDeg * DEG2RAD / 2 := by
    rw [show (0.5 : ℝ) = 1/2 from by norm_num]
    ring
  have hform : TreadmillDevice_GetPose_qRotation yawDeg =
      { w := Real.cos (yawDeg * DEG2RAD / 2), x := 0,
        y := -Real.sin (yawDeg * DEG2RAD / 2), z := 0 } := by
    simp only [TreadmillDevice_GetPose_qRotation]
    rw [harg]
  have hns : (TreadmillDevice_GetPose_qRotation yawDeg).normSq = 1 := by
    rw [hform]
    have h := Real.sin_sq_add_cos_sq (yawDeg * DEG2RAD / 2)
    rw [pow_two, pow_two] at h
    simp only [QuatR.normSq, mul_zero, zero_mul, add_zero, neg_mul_neg]
    linarith
  have hfix : normalizeQuat (TreadmillDevice_GetPose_qRotation yawDeg) =
      TreadmillDevice_GetPose_qRotation yawDeg := by
    simp only [normalizeQuat]
    rw [hns, Real.sqrt_one]
    rw [if_pos (by norm_num : (0.0001 : ℝ) < 1)]
    simp
  have htr : TreadmillVisualTracker_GetPose_qRotation yawDeg =
      TreadmillDevice_GetPose_qRotation yawDeg := hfix
  exact ⟨hform, htr, hns, hfix⟩

/-! ## C8: the direction validator -/

/-- C8 counterexample: with the headset displaced a full metre (so the
5 cm skip does not apply) but a zero joystick vector, the validator makes
no classification at all — the `expectedLength > 0.01` guard, absent from
the claim, cuts the analysis short. -/
theorem C8_counterexample :
    0.05 < Real.sqrt (((1 : ℝ) - 0) * ((1 : ℝ) - 0) +
      ((0 : ℝ) - 0) * ((0 : ℝ) - 0)) ∧
    validatorDeviation 1 0 0 0 0 0 0 = none := by
  constructor
  · norm_num [Real.sqrt_one]
  · norm_num [validatorDeviation, Real.sqrt_one, Real.sqrt_zero,
      Real.sin_zero, Real.cos_zero]

/-- C8 (amended): on a validator tick with a previous sample, a
displacement of at most 5 cm yields no classification; with displacement
above 5 cm a classification is made only when the rotated joystick vector
is longer than `0.01`, and then the reported deviation is
`acos(clamp(dot(actualDir, expectedDir), -1, 1))` in degrees with a
mismatch flagged exactly when it exceeds 5 degrees. -/
theorem C8_validator (cx cz lx lz jx jy yaw : ℝ)
    (hd : 0.05 < actualDistanceR cx cz lx lz)
    (he : 0.01 < expectedLengthR jx jy yaw) :
    validatorDeviation cx cz lx lz jx jy yaw =
      some (angleDeviationR cx cz lx lz jx jy yaw) ∧
    (validatorMismatch cx cz lx lz jx jy yaw ↔
      5 < angleDeviationR cx cz lx lz jx jy yaw) ∧
    ∀ cx2 cz2 lx2 lz2 jx2 jy2 yaw2 : ℝ,
      ¬ 0.05 < actualDistanceR cx2 cz2 lx2 lz2 →
      validatorDeviation cx2 cz2 lx2 lz2 jx2 jy2 yaw2 = none := by
  have h1 : validatorDeviation cx cz lx lz jx jy yaw =
      some (angleDeviationR cx cz lx lz jx jy yaw) := by
    unfold actualDistanceR at hd
    unfold expectedLengthR expectedWorldXR expectedWorldZR at he
    simp only [validatorDeviation]
    rw [if_pos hd, if_pos he]
    unfold angleDeviationR actualDistanceR expectedLengthR expectedWorldXR expectedWorldZR
    rfl
  refine ⟨h1, ?_, ?_⟩
  · unfold validatorMismatch
    rw [h1]
  · intro cx2 cz2 lx2 lz2 jx2 jy2 yaw2 h2
    unfold actualDistanceR at h2
    simp only [validatorDeviation]
    rw [if_neg h2]

/-- C8 witness: headset moved 1 m east, joystick forward, yaw 0 — the
classification is made (the deviation there is 90°, a mismatch). -/
theorem C8_validator_witness :
    (validatorDeviation 1 0 0 0 0 1 0 = some (angleDeviationR 1 0 0 0 0 1 0) ∧
    (validatorMismatch 1 0 0 0 0 1 0 ↔ 5 < angleDeviationR 1 0 0 0 0 1 0) ∧
    ∀ cx2 cz2 lx2 lz2 jx2 jy2 yaw2 : ℝ,
      ¬ 0.05 < actualDistanceR cx2 cz2 lx2 lz2 →
      validatorDeviation cx2 cz2 lx2 lz2 jx2 jy2 yaw2 = none) :=
  C8_validator 1 0 0 0 0 1 0
    (by norm_num [actualDistanceR, Real.sqrt_one])
    (by norm_num [expectedLengthR, expectedWorldXR, expectedWorldZR,
      Real.sin_zero, Real.cos_zero, Real.sqrt_one])
